import Mathlib

/-!
Verification development for the BRICK protocol demo repository
(Behavioral Recording & Interaction Capture Kit).

The TypeScript sources are shallowly embedded below:
- number values are modelled exactly, as unreduced fractions (`JSR`, an
  integer numerator over a natural denominator) together with the three
  non-finite JavaScript values `NaN`, `Infinity` and `-Infinity` (`JSNum`);
  arithmetic and comparisons follow IEEE/JS rules (`x/0` is an infinity,
  `0/0` is `NaN`, every comparison against `NaN` is false);
- the action data model of `types.ts` is embedded structurally; the `event`
  field, discriminated in TypeScript by field presence, becomes a sum type,
  and TypeScript field-presence tests (the `in` operator) become matches
  (the recursive `container`/`children` fields of GUI elements are elided:
  no operation analysed here ever reads them);
- randomness (`Math.random()`), fresh identifiers (`crypto.randomUUID()`)
  and clock reads are passed in as explicit parameters;
- the pattern extractor and task synthesizer of
  `absolute-zero-generator.ts`, the replay engine of `player.ts`, the
  variation generator of `task-generator.ts` and the instruction translator
  of `mcp.ts` are translated function by function.
-/

/-! ## JavaScript number model -/

/-- Finite JavaScript number, kept as an unreduced fraction: numerator `n`
over denominator `d`.  Every constructor in this file uses a positive `d`,
and operations preserve positivity; lemmas that need it take it as a
hypothesis. -/
structure JSR where
  n : ℤ
  d : ℕ
deriving DecidableEq, Repr

namespace JSR

/-- Strict `<` on finite values by cross multiplication (valid for positive
denominators). -/
def ltB (x y : JSR) : Bool := decide (x.n * (y.d : ℤ) < y.n * (x.d : ℤ))

/-- Non-strict `<=` on finite values by cross multiplication. -/
def leB (x y : JSR) : Bool := decide (x.n * (y.d : ℤ) ≤ y.n * (x.d : ℤ))

/-- Addition of finite values. -/
def add (x y : JSR) : JSR := ⟨x.n * (y.d : ℤ) + y.n * (x.d : ℤ), x.d * y.d⟩

/-- Subtraction of finite values. -/
def sub (x y : JSR) : JSR := ⟨x.n * (y.d : ℤ) - y.n * (x.d : ℤ), x.d * y.d⟩

/-- Multiplication of finite values. -/
def mul (x y : JSR) : JSR := ⟨x.n * y.n, x.d * y.d⟩

/-- Embedding of an integer. -/
def ofInt (k : ℤ) : JSR := ⟨k, 1⟩

/-- Embedding of a natural number. -/
def ofNat (k : ℕ) : JSR := ⟨(k : ℤ), 1⟩

/-- Division of finite values, assuming the divisor is nonzero (the zero
divisor case is dispatched to an infinity or `NaN` before this function is
reached).  The sign of the numerator of the divisor is moved into the
numerator of the result so that the denominator stays a natural number. -/
def div (x y : JSR) : JSR :=
  if 0 ≤ y.n then ⟨x.n * (y.d : ℤ), x.d * y.n.toNat⟩
  else ⟨-(x.n * (y.d : ℤ)), x.d * y.n.natAbs⟩

/-- Math.floor on a finite value: floor division of the numerator by the
denominator. -/
def floor (x : JSR) : ℤ := x.n.fdiv (x.d : ℤ)

/-- Math.max of two finite values. -/
def maxB (x y : JSR) : JSR := if ltB x y then y else x

/-- Math.min of two finite values. -/
def minB (x y : JSR) : JSR := if ltB y x then y else x

end JSR

/-- JavaScript number: a finite fraction, an infinity, or `NaN`. -/
inductive JSNum where
  | num (x : JSR)
  | posInf
  | negInf
  | nan
deriving DecidableEq, Repr

namespace JSNum

/-- JavaScript division `x / y` of finite operands: division by (exact)
zero yields a signed infinity, `0 / 0` yields `NaN`. -/
def jsDiv (x y : JSR) : JSNum :=
  if y.n = 0 then
    if x.n = 0 then nan
    else if 0 < x.n then posInf
    else negInf
  else num (JSR.div x y)

/-- JavaScript `v > c` (false whenever `v` is `NaN`). -/
def gtB (v : JSNum) (c : JSR) : Bool :=
  match v with
  | num x => JSR.ltB c x
  | posInf => true
  | negInf => false
  | nan => false

/-- JavaScript `v >= c` (false whenever `v` is `NaN`). -/
def geB (v : JSNum) (c : JSR) : Bool :=
  match v with
  | num x => JSR.leB c x
  | posInf => true
  | negInf => false
  | nan => false

/-- Math.min(c, v) for a finite first argument. -/
def jsMin (c : JSR) (v : JSNum) : JSNum :=
  match v with
  | num x => if JSR.ltB x c then num x else num c
  | posInf => num c
  | negInf => negInf
  | nan => nan

/-- Math.max(c, v) for a finite first argument. -/
def jsMax (c : JSR) (v : JSNum) : JSNum :=
  match v with
  | num x => if JSR.ltB x c then num c else num x
  | posInf => posInf
  | negInf => num c
  | nan => nan

/-- JavaScript `1 - v`. -/
def oneSub (v : JSNum) : JSNum :=
  match v with
  | num x => num (JSR.sub ⟨1, 1⟩ x)
  | posInf => negInf
  | negInf => posInf
  | nan => nan

/-- JavaScript addition. -/
def addN (v w : JSNum) : JSNum :=
  match v, w with
  | num x, num y => num (JSR.add x y)
  | nan, _ => nan
  | _, nan => nan
  | posInf, negInf => nan
  | negInf, posInf => nan
  | posInf, _ => posInf
  | _, posInf => posInf
  | negInf, _ => negInf
  | _, negInf => negInf

/-- JavaScript multiplication by a finite constant. -/
def mulN (v : JSNum) (c : JSR) : JSNum :=
  match v with
  | num x => num (JSR.mul x c)
  | posInf => if 0 < c.n then posInf else if c.n < 0 then negInf else nan
  | negInf => if 0 < c.n then negInf else if c.n < 0 then posInf else nan
  | nan => nan

/-- JavaScript `1 / x` for a finite `x` (`1 / 0` is `Infinity`). -/
def invN (x : JSR) : JSNum :=
  if x.n = 0 then posInf else num (JSR.div ⟨1, 1⟩ x)

/-- JavaScript `v / 2`. -/
def halfN (v : JSNum) : JSNum :=
  match v with
  | num x => num ⟨x.n, x.d * 2⟩
  | posInf => posInf
  | negInf => negInf
  | nan => nan

/-- JavaScript `v + c` where `v` may be a missing property (`undefined`,
modelled as `none`): `undefined + c` is `NaN`. -/
def addUndef (v : Option JSNum) (c : JSR) : JSNum :=
  match v with
  | none => nan
  | some (num x) => num (JSR.add x c)
  | some posInf => posInf
  | some negInf => negInf
  | some nan => nan

/-- JavaScript `v <= w`, total on `JSNum` (false whenever `NaN` is
involved).  Used only to order the pattern sort; the development relies on
no property of this order beyond it being a boolean function. -/
def leN (v w : JSNum) : Bool :=
  match v, w with
  | num x, num y => JSR.leB x y
  | nan, _ => false
  | _, nan => false
  | negInf, _ => true
  | _, negInf => false
  | _, posInf => true
  | posInf, _ => false

end JSNum

/-! ## String helpers (JavaScript semantics) -/

/-- Splitting of a character list at every occurrence of the separator,
as JavaScript String.prototype.split does (the result is never empty). -/
def splitChar (c : Char) : List Char → List (List Char)
  | [] => [[]]
  | x :: xs =>
    let r := splitChar c xs
    if x = c then [] :: r
    else
      match r with
      | [] => [[x]]
      | y :: ys => (x :: y) :: ys

/-- JavaScript `s.split(c)` for a single-character separator. -/
def jsSplit (s : String) (c : Char) : List String :=
  (splitChar c s.data).map (fun l => ⟨l⟩)

/-- JavaScript `s.toLowerCase()` (per-character lowering suffices for the
ASCII tags this repository produces). -/
def strToLower (s : String) : String := ⟨s.data.map Char.toLower⟩

/-- JavaScript `hay.includes(needle)`. -/
def strIncludes (hay needle : String) : Bool :=
  let h := hay.data
  let n := needle.data
  (List.range (h.length + 1)).any (fun i => (h.drop i).take n.length = n)

/-! ## Action data model (`types.ts`) -/

/-- Coordinates of a mouse event (`BrickCoordinates`). -/
structure BrickCoordinates where
  x : JSR
  y : JSR
  screen : Option JSR
  relative : Option Bool
deriving DecidableEq, Repr

/-- Target of a mouse event. -/
structure BrickMouseTarget where
  element : String
  selector : String
  text : Option String
  attributes : List (String × String)
  role : Option String
deriving DecidableEq, Repr

/-- Mouse event (`BrickMouseEvent`); `type` is one of click, doubleClick,
rightClick, drag, move, scroll. -/
structure BrickMouseEvent where
  type : String
  coordinates : BrickCoordinates
  target : Option BrickMouseTarget
  button : Option JSR
  pressure : Option JSR
  timestamp : JSR
deriving DecidableEq, Repr

/-- Keyboard modifier flags. -/
structure BrickModifiers where
  ctrl : Option Bool
  alt : Option Bool
  shift : Option Bool
  meta : Option Bool
  fn : Option Bool
deriving DecidableEq, Repr

/-- Keyboard event (`BrickKeyboardEvent`); `type` is one of keyPress,
keyDown, keyUp, textInput, hotkey.  The source field `repeat` is renamed
`repeated` (`repeat` is reserved in Lean). -/
structure BrickKeyboardEvent where
  type : String
  key : String
  keyCode : Option JSR
  modifiers : Option BrickModifiers
  repeated : Option Bool
  timestamp : JSR
deriving DecidableEq, Repr

/-- Process description (`BrickProcessInfo`); status strings are kept as
plain strings. -/
structure BrickProcessInfo where
  name : String
  pid : Option JSR
  path : Option String
  commandLine : Option String
  user : Option String
  startTime : Option JSR
  cpu : Option JSR
  memory : Option JSR
  status : Option String
deriving DecidableEq, Repr

/-- Service description (`BrickServiceInfo`). -/
structure BrickServiceInfo where
  name : String
  displayName : Option String
  status : String
  startType : String
  processId : Option JSR
  dependencies : Option (List String)
deriving DecidableEq, Repr

/-- System call payload (`BrickSystemCall`).  `parameters` and `result`
carry arbitrary JSON in TypeScript; they are modelled as string maps, which
is enough for every operation analysed here (none inspects them beyond
copying). -/
structure BrickSystemCall where
  type : String
  module : String
  function : String
  parameters : Option (List (String × String))
  result : Option String
  error : Option String
  timestamp : JSR
deriving DecidableEq, Repr

/-- Window description inside a system event. -/
structure BrickWindowInfo where
  title : String
  handle : Option JSR
  bounds : Option (JSR × JSR × JSR × JSR)
  isFullscreen : Option Bool
  isMinimized : Option Bool
  isMaximized : Option Bool
deriving DecidableEq, Repr

/-- System event (`BrickSystemEvent`). -/
structure BrickSystemEvent where
  type : String
  process : Option BrickProcessInfo
  service : Option BrickServiceInfo
  systemCall : Option BrickSystemCall
  window : Option BrickWindowInfo
  timestamp : JSR
deriving DecidableEq, Repr

/-- Event payload of an action.  TypeScript stores one of the three event
shapes (or, for the fallback branch of the synthesizer, a bare
`{ timestamp }` object, constructor `bare`); field-presence tests
translate to matches on this sum. -/
inductive BrickEvent where
  | mouse (e : BrickMouseEvent)
  | keyboard (e : BrickKeyboardEvent)
  | system (e : BrickSystemEvent)
  | bare (timestamp : JSR)
deriving DecidableEq, Repr

/-- Timestamp of any event shape (every shape carries one, so the guard
on the `timestamp` field is always true). -/
def eventTimestamp : BrickEvent → JSR
  | .mouse e => e.timestamp
  | .keyboard e => e.timestamp
  | .system e => e.timestamp
  | .bare t => t

/-- Functional update of the timestamp of any event shape (the spread
`{ ...event, timestamp }` used by the synthesizer and the variation
generator). -/
def setEventTimestamp : BrickEvent → JSR → BrickEvent
  | .mouse e, t => .mouse { e with timestamp := t }
  | .keyboard e, t => .keyboard { e with timestamp := t }
  | .system e, t => .system { e with timestamp := t }
  | .bare _, t => .bare t

/-- Screen bounds inside an environment descriptor. -/
structure ScreenBounds where
  x : JSR
  y : JSR
  width : JSR
  height : JSR
deriving DecidableEq, Repr

/-- One screen of the display descriptor. -/
structure BrickScreen where
  id : JSR
  bounds : ScreenBounds
  primary : Bool
  scaleFactor : JSR
deriving DecidableEq, Repr

/-- Display descriptor. -/
structure BrickDisplay where
  screens : List BrickScreen
deriving DecidableEq, Repr

/-- Operating system descriptor. -/
structure OsInfo where
  name : String
  version : String
  arch : String
deriving DecidableEq, Repr

/-- Environment descriptor (`BrickEnvironmentContext`). -/
structure BrickEnvironmentContext where
  os : OsInfo
  display : BrickDisplay
  locale : String
  timezone : String
deriving DecidableEq, Repr

/-- GUI element snapshot (recursive `container`/`children` fields elided:
unread by every analysed operation). -/
structure BrickGUIElement where
  type : String
  text : Option String
  confidence : Option JSR
  bounds : ScreenBounds
  attributes : List (String × String)
deriving DecidableEq, Repr

/-- GUI state snapshot inside an action context. -/
structure BrickGUIState where
  elements : List BrickGUIElement
deriving DecidableEq, Repr

/-- Context snapshot attached to every action.  `systemState` is a
JavaScript object of numeric metrics; it is kept as an ordered association
list because the synthesizer stores arbitrary aggregated records in this
slot, so the fixed four-field shape of `types.ts` is not an invariant. -/
structure BrickActionContext where
  windowTitle : Option String
  activeApp : Option String
  screenResolution : Option (JSR × JSR)
  environment : Option BrickEnvironmentContext
  processChain : Option (List BrickProcessInfo)
  systemState : Option (List (String × JSNum))
  guiState : Option BrickGUIState
deriving DecidableEq, Repr

/-- Captured or synthesized action (`BrickAction`).  `type` is kept as a
string, as in the source, where it can in principle disagree with the shape
of `event`. -/
structure BrickAction where
  id : String
  type : String
  event : BrickEvent
  context : BrickActionContext
deriving DecidableEq, Repr

/-- Stored recording (`TaskRecording` of `database.ts`). -/
structure TaskRecording where
  id : String
  name : String
  description : String
  actions : List BrickAction
  environment : BrickEnvironmentContext
  created_at : String
  tags : List String
deriving DecidableEq, Repr

/-! ## Pattern extractor and task synthesizer (`absolute-zero-generator.ts`) -/

/-- Distilled pattern (`TaskPattern`). -/
structure SuccessMetrics where
  completionRate : JSR
  executionTime : JSNum
  errorRate : JSR
  userSatisfaction : JSNum
deriving DecidableEq, Repr

/-- Context features of a pattern. -/
structure ContextFeatures where
  environment : List String
  guiElements : List String
  systemState : List (String × JSNum)
deriving DecidableEq, Repr

/-- Reusable pattern distilled from a successful recording. -/
structure TaskPattern where
  id : String
  actionSequence : List String
  successMetrics : SuccessMetrics
  contextFeatures : ContextFeatures
  emergentBehaviors : List String
deriving DecidableEq, Repr

/-- Partial environment hints (`Partial<BrickEnvironmentContext>`). -/
structure ContextHints where
  os : Option OsInfo := none
  display : Option BrickDisplay := none
  locale : Option String := none
  timezone : Option String := none
deriving DecidableEq, Repr

/-- isErrorAction: a system action whose system call carries an error
payload (the mouse branch of the source always returns false). -/
def isErrorAction (action : BrickAction) : Bool :=
  if action.type = "system" then
    match action.event with
    | .system e =>
      match e.systemCall with
      | some sc => sc.error.isSome
      | none => false
    | _ => false
  else false

/-- getTotalExecutionTime: `max(timestamps) - min(timestamps)`, 0 for an
empty list. -/
def getTotalExecutionTime (actions : List BrickAction) : JSR :=
  match actions.map (fun a => eventTimestamp a.event) with
  | [] => ⟨0, 1⟩
  | t :: ts => JSR.sub (ts.foldl JSR.maxB t) (ts.foldl JSR.minB t)

/-- calculateOptimalTime: 50 ms per action. -/
def calculateOptimalTime (actions : List BrickAction) : JSR :=
  ⟨(actions.length : ℤ) * 50, 1⟩

/-- calculateExecutionEfficiency: `min(1, optimalTime / totalTime)`, 0 for
an empty list.  The division is unguarded in the source; `jsDiv` carries
the JavaScript behaviour for a zero denominator. -/
def calculateExecutionEfficiency (actions : List BrickAction) : JSNum :=
  if actions.isEmpty then .num ⟨0, 1⟩
  else
    JSNum.jsMin ⟨1, 1⟩
      (JSNum.jsDiv (calculateOptimalTime actions) (getTotalExecutionTime actions))

/-- areActionsSimilar: same `type` and JSON-identical `event` payload
(structural equality of the embedded event). -/
def areActionsSimilar (a1 a2 : BrickAction) : Bool :=
  a1.type = a2.type && a1.event = a2.event

/-- countRedundantActions: number of positions whose action repeats its
immediate predecessor. -/
def countRedundantActions (actions : List BrickAction) : ℕ :=
  (actions.zip actions.tail).countP (fun p => areActionsSimilar p.1 p.2)

/-- calculateCleanlinessScore: `max(0, 1 - redundant / total)`.  The
division is unguarded: on an empty list it is `0 / 0`, that is `NaN`,
which propagates through the subtraction and `Math.max`. -/
def calculateCleanlinessScore (actions : List BrickAction) : JSNum :=
  JSNum.jsMax ⟨0, 1⟩
    (JSNum.oneSub
      (JSNum.jsDiv ⟨(countRedundantActions actions : ℤ), 1⟩
        ⟨(actions.length : ℤ), 1⟩))

/-- hasCompletedSuccessfully (first conjunct of hasPositiveFeedback): the
recording is non-empty and contains no error-indicating action. -/
def hasCompletedSuccessfully (task : TaskRecording) : Bool :=
  decide (0 < task.actions.length) && !(task.actions.any isErrorAction)

/-- hasOptimalTiming (second conjunct): efficiency strictly above 0.7. -/
def hasOptimalTiming (task : TaskRecording) : Bool :=
  JSNum.gtB (calculateExecutionEfficiency task.actions) ⟨7, 10⟩

/-- hasCleanExecution (third conjunct): cleanliness strictly above 0.8. -/
def hasCleanExecution (task : TaskRecording) : Bool :=
  JSNum.gtB (calculateCleanlinessScore task.actions) ⟨8, 10⟩

/-- hasPositiveFeedback: conjunction of completion, timing and
cleanliness. -/
def hasPositiveFeedback (task : TaskRecording) : Bool :=
  hasCompletedSuccessfully task && hasOptimalTiming task && hasCleanExecution task

/-- extractActionSequence: `type:subtype` tokens of the actions. -/
def extractActionSequence (actions : List BrickAction) : List String :=
  actions.map (fun action =>
    match action.type, action.event with
    | "mouse", .mouse e => "mouse:" ++ e.type
    | "keyboard", .keyboard e => "keyboard:" ++ e.type
    | "system", .system e => "system:" ++ e.type
    | "mouse", _ => "mouse:"
    | "keyboard", _ => "keyboard:"
    | "system", _ => "system:"
    | _, _ => "unknown")

/-- aggregateSystemState: per-key sums of the `systemState` records of the
actions (JavaScript `(state[key] || 0) + value`, where `||` also replaces a
stored `NaN` or exact zero by the literal 0). -/
def falsyOrZero (v : Option JSNum) : JSNum :=
  match v with
  | none => .num ⟨0, 1⟩
  | some (.num x) => if x.n = 0 then .num ⟨0, 1⟩ else .num x
  | some .nan => .num ⟨0, 1⟩
  | some .posInf => .posInf
  | some .negInf => .negInf

/-- Update of a JavaScript object field: replace in place when the key is
present, append otherwise. -/
def setKeyJS (l : List (String × JSNum)) (k : String) (v : JSNum) :
    List (String × JSNum) :=
  if l.any (fun p => p.1 = k) then
    l.map (fun p => if p.1 = k then (k, v) else p)
  else l ++ [(k, v)]

/-- Lookup of a JavaScript object field. -/
def getKeyJS (l : List (String × JSNum)) (k : String) : Option JSNum :=
  (l.find? (fun p => p.1 = k)).map (fun p => p.2)

/-- aggregateSystemState over the actions of a recording. -/
def aggregateSystemState (actions : List BrickAction) : List (String × JSNum) :=
  actions.foldl
    (fun state action =>
      match action.context.systemState with
      | some entries =>
        entries.foldl
          (fun st kv =>
            setKeyJS st kv.1 (JSNum.addN (falsyOrZero (getKeyJS st kv.1)) kv.2))
          state
      | none => state)
    []

/-- extractContextFeatures of a recording. -/
def extractContextFeatures (task : TaskRecording) : ContextFeatures :=
  { environment := [task.environment.os.name, task.environment.locale,
      task.environment.timezone]
    guiElements :=
      ((task.actions.filter (fun a =>
          match a.context.guiState with
          | some g => !g.elements.isEmpty || true
          | none => false)).map
        (fun a =>
          match a.context.guiState with
          | some g => g.elements.map (fun el => el.type)
          | none => [])).flatten
    systemState := aggregateSystemState task.actions }

/-- identifyEmergentBehaviors: the sequence detector returns nothing and
the adaptive/optimization detectors return fixed tags. -/
def identifyEmergentBehaviors (_actions : List BrickAction) : List String :=
  [] ++ ["adaptive-timing", "context-awareness"] ++
    ["efficient-navigation", "minimal-clicks"]

/-- inferUserSatisfaction: mean of efficiency and cleanliness. -/
def inferUserSatisfaction (actions : List BrickAction) : JSNum :=
  JSNum.halfN
    (JSNum.addN (calculateExecutionEfficiency actions)
      (calculateCleanlinessScore actions))

/-- extractSuccessPattern of a qualifying recording; the fresh pattern
identifier is passed in. -/
def extractSuccessPattern (uuid : String) (task : TaskRecording) : TaskPattern :=
  { id := uuid
    actionSequence := extractActionSequence task.actions
    successMetrics :=
      { completionRate := ⟨1, 1⟩
        executionTime := .num (getTotalExecutionTime task.actions)
        errorRate := ⟨0, 1⟩
        userSatisfaction := inferUserSatisfaction task.actions }
    contextFeatures := extractContextFeatures task
    emergentBehaviors := identifyEmergentBehaviors task.actions }

/-- initializeFromSuccessfulTasks: scan all stored recordings, keep those
with positive feedback, distill each into a pattern (stored in scan
order). -/
def initializeFromSuccessfulTasks (uuid : ℕ → String)
    (allTasks : List TaskRecording) : List TaskPattern :=
  (allTasks.filter hasPositiveFeedback).mapIdx
    (fun i t => extractSuccessPattern (uuid i) t)

/-- isPatternRelevant: with no platform hint every pattern is relevant;
otherwise some recorded environment tag must contain the hinted platform
name, case-insensitively. -/
def isPatternRelevant (pattern : TaskPattern) (contextHints : ContextHints) :
    Bool :=
  match contextHints.os with
  | none => true
  | some os =>
    pattern.contextFeatures.environment.any
      (fun env => strIncludes (strToLower env) (strToLower os.name))

/-- calculatePatternScore: weighted sum of the success metrics
(`1 / executionTime` is an infinity when the recorded time is zero). -/
def calculatePatternScore (pattern : TaskPattern) : JSNum :=
  JSNum.addN
    (JSNum.addN
      (JSNum.addN (.num (JSR.mul pattern.successMetrics.completionRate ⟨4, 10⟩))
        (JSNum.mulN
          (match pattern.successMetrics.executionTime with
           | .num x => JSNum.invN x
           | .posInf => .num ⟨0, 1⟩
           | .negInf => .num ⟨0, 1⟩
           | .nan => .nan) ⟨3, 10⟩))
      (.num (JSR.mul (JSR.sub ⟨1, 1⟩ pattern.successMetrics.errorRate) ⟨2, 10⟩)))
    (JSNum.mulN pattern.successMetrics.userSatisfaction ⟨1, 10⟩)

/-- Stable insertion of an element into a sorted list (model of the stable
Array.prototype.sort; only the length and membership of the result are
relied on, matching the unspecified tie order of the design notes). -/
def orderedInsertBy (le : TaskPattern → TaskPattern → Bool) (x : TaskPattern) :
    List TaskPattern → List TaskPattern
  | [] => [x]
  | y :: ys => if le x y then x :: y :: ys else y :: orderedInsertBy le x ys

/-- Stable sort by a boolean relation. -/
def sortPatternsBy (le : TaskPattern → TaskPattern → Bool) :
    List TaskPattern → List TaskPattern
  | [] => []
  | x :: xs => orderedInsertBy le x (sortPatternsBy le xs)

/-- Comparator of selectRelevantPatterns: descending pattern score
(`(a, b) => score(b) - score(a)`). -/
def patternScoreGe (a b : TaskPattern) : Bool :=
  JSNum.leN (calculatePatternScore b) (calculatePatternScore a)

/-- selectRelevantPatterns: filter the store by relevance, sort by
descending score, and keep the first
`max(1, Math.floor(complexityLevel * patterns.length))` entries — note
that `patterns.length` is the size of the WHOLE store, taken before the
relevance filter. -/
def selectRelevantPatterns (store : List TaskPattern)
    (contextHints : ContextHints) (complexityLevel : JSR) : List TaskPattern :=
  let patterns := store
  ((sortPatternsBy patternScoreGe
      (patterns.filter (fun p => isPatternRelevant p contextHints))).take
    (Int.toNat (max 1
      (JSR.floor (JSR.mul complexityLevel (JSR.ofNat patterns.length))))))

/-- generateEventFromType: synthetic event payload for a reconstructed
token; the default branch of the source returns a bare `{ timestamp }`
object. -/
def generateEventFromType (ty subty : String) (index : ℕ) : BrickEvent :=
  match ty with
  | "mouse" =>
    .mouse
      { type := subty
        coordinates :=
          { x := ⟨100 + (index : ℤ) * 50, 1⟩
            y := ⟨100 + (index : ℤ) * 30, 1⟩
            screen := none
            relative := some true }
        target := none
        button := none
        pressure := none
        timestamp := ⟨(index : ℤ) * 100, 1⟩ }
  | "keyboard" =>
    .keyboard
      { type := subty
        key := "generated"
        keyCode := none
        modifiers := none
        repeated := none
        timestamp := ⟨(index : ℤ) * 100, 1⟩ }
  | "system" =>
    .system
      { type := subty
        process := none
        service := none
        systemCall := none
        window := none
        timestamp := ⟨(index : ℤ) * 100, 1⟩ }
  | _ => .bare ⟨(index : ℤ) * 100, 1⟩

/-- generateContextFromPattern: fixed synthetic context carrying the
aggregated system state of the pattern. -/
def generateContextFromPattern (pattern : TaskPattern) : BrickActionContext :=
  { windowTitle := some "Generated Context"
    activeApp := some "synthetic"
    screenResolution := some (⟨1920, 1⟩, ⟨1080, 1⟩)
    environment := none
    processChain := none
    systemState := some pattern.contextFeatures.systemState
    guiState := none }

/-- reconstructActionsFromPattern: one synthetic action per `type:subtype`
token (a token with no separator leaves the subtype undefined; the empty
string stands for that here, unread by every later consumer).  Fresh
identifiers are drawn from `uuid` starting at `u0`. -/
def reconstructActionsFromPattern (uuid : ℕ → String) (u0 : ℕ)
    (pattern : TaskPattern) : List BrickAction :=
  pattern.actionSequence.mapIdx (fun index actionType =>
    let parts := jsSplit actionType ':'
    let ty := parts.headD ""
    let subty := (parts.drop 1).headD ""
    { id := uuid (u0 + index)
      type := ty
      event := generateEventFromType ty subty index
      context := generateContextFromPattern pattern })

/-- synthesizeActions: concatenate the reconstructions of the selected
patterns, renumbering every event timestamp with one global counter
(`currentTimestamp++`), then apply the (identity) optimizeActionSequence
pass. -/
def synthesizeActionsGo (uuid : ℕ → String) :
    List TaskPattern → ℕ → ℕ → List BrickAction
  | [], _, _ => []
  | p :: ps, ts, u0 =>
    let patternActions := reconstructActionsFromPattern uuid u0 p
    let normalized := patternActions.mapIdx (fun i a =>
      { a with event := setEventTimestamp a.event ⟨(ts + i : ℤ), 1⟩ })
    normalized ++
      synthesizeActionsGo uuid ps (ts + patternActions.length)
        (u0 + patternActions.length)

/-- optimizeActionSequence is the identity in the source. -/
def optimizeActionSequence (actions : List BrickAction) : List BrickAction :=
  actions

/-- synthesizeActions over the selected patterns. -/
def synthesizeActions (uuid : ℕ → String) (patterns : List TaskPattern) :
    List BrickAction :=
  optimizeActionSequence (synthesizeActionsGo uuid patterns 0 0)

/-- removeRedundantActions: keep an action unless it repeats the action at
the previous index of the ORIGINAL list. -/
def removeRedundantActions (actions : List BrickAction) : List BrickAction :=
  match actions with
  | [] => []
  | a :: rest =>
    a :: ((actions.zip rest).filterMap (fun p =>
      if areActionsSimilar p.1 p.2 then none else some p.2))

/-- optimizeTimings: reassign timestamps at 75 ms spacing. -/
def optimizeTimings (actions : List BrickAction) : List BrickAction :=
  actions.mapIdx (fun index a =>
    { a with event := setEventTimestamp a.event ⟨(index : ℤ) * 75, 1⟩ })

/-- applyEmergentPatterns is the identity in the source. -/
def applyEmergentPatterns (actions : List BrickAction) : List BrickAction :=
  actions

/-- applyLearnedOptimizations: deduplicate, retime, apply emergent
patterns. -/
def applyLearnedOptimizations (actions : List BrickAction) : List BrickAction :=
  applyEmergentPatterns (optimizeTimings (removeRedundantActions actions))

/-- generateOptimalEnvironment: hinted fields take precedence, unset ones
fall back to fixed defaults. -/
def generateOptimalEnvironment (_patterns : List TaskPattern)
    (hints : ContextHints) : BrickEnvironmentContext :=
  { os := hints.os.getD ⟨"Windows", "11", "x64"⟩
    display := hints.display.getD
      ⟨[{ id := ⟨0, 1⟩
          bounds := ⟨⟨0, 1⟩, ⟨0, 1⟩, ⟨1920, 1⟩, ⟨1080, 1⟩⟩
          primary := true
          scaleFactor := ⟨1, 1⟩ }]⟩
    locale := hints.locale.getD "en-US"
    timezone := hints.timezone.getD "UTC" }

/-- Math.round of a finite value (round half up). -/
def jsRound (x : JSR) : ℤ := JSR.floor (JSR.add x ⟨1, 2⟩)

/-- generateFutureTask: select, synthesize, optimize, and package a new
recording.  The fresh recording identifier, per-action identifier supply
and clock reading are explicit parameters. -/
def generateFutureTask (uuid : ℕ → String) (taskId now : String)
    (store : List TaskPattern) (contextHints : ContextHints)
    (complexityLevel : JSR) : TaskRecording :=
  let relevantPatterns := selectRelevantPatterns store contextHints complexityLevel
  let synthesizedActions := synthesizeActions uuid relevantPatterns
  let optimizedActions := applyLearnedOptimizations synthesizedActions
  let environment := generateOptimalEnvironment relevantPatterns contextHints
  { id := taskId
    name := "Generated Task (Complexity: " ++
      toString (jsRound (JSR.mul complexityLevel ⟨100, 1⟩)) ++ "%)"
    description := "Task generata usando tecnica Absolute Zero basata su " ++
      toString relevantPatterns.length ++ " pattern di successo"
    actions := optimizedActions
    environment := environment
    tags := ["generated", "absolute-zero",
      "complexity-" ++ toString (jsRound (JSR.mul complexityLevel ⟨10, 1⟩))]
    created_at := now }

/-! ## Replay engine (`player.ts`) -/

/-- State of a `BrickPlayer` instance. -/
structure BrickPlayerState where
  actions : List BrickAction
  isPlaying : Bool
  currentIndex : ℕ
deriving DecidableEq, Repr

/-- load: replace the loaded sequence and reset the cursor. -/
def BrickPlayer.load (s : BrickPlayerState) (recording : List BrickAction) :
    BrickPlayerState :=
  { s with actions := recording, currentIndex := 0 }

/-- getProgress: `currentIndex / length * 100`, 0 for an empty
sequence. -/
def BrickPlayer.getProgress (s : BrickPlayerState) : JSR :=
  if s.actions.length = 0 then ⟨0, 1⟩
  else ⟨(s.currentIndex : ℤ) * 100, s.actions.length⟩

/-- Body of the `while` loop of play(), single-threaded (stop() cannot run
between iterations, so `isPlaying` stays true throughout).  `dispatch`
stands for executeAction, whose internal catch rethrows; the result is the
list of actions on which dispatch was invoked, in invocation order, paired
with the error that escaped the loop, if any.  The inter-action suspension
does not affect which actions run and is not modelled. -/
def playRun (dispatch : BrickAction → Except String Unit) :
    List BrickAction → List BrickAction × Option String
  | [] => ([], none)
  | a :: rest =>
    match dispatch a with
    | .ok _ =>
      let r := playRun dispatch rest
      (a :: r.1, r.2)
    | .error e => ([a], some e)

/-- play(): immediate return when already playing or when the sequence is
empty; otherwise run the loop.  The surrounding `try/catch` logs any loop
error without rethrowing, and the `finally` clears `isPlaying`, so the
promise returned to the caller always resolves normally — the third
component is what the caller observes. -/
def BrickPlayer.play (dispatch : BrickAction → Except String Unit)
    (s : BrickPlayerState) :
    BrickPlayerState × List BrickAction × Except String Unit :=
  if s.isPlaying || s.actions.isEmpty then (s, [], .ok ())
  else
    let run := playRun dispatch s.actions
    let callerResult : Except String Unit :=
      match run.2 with
      | some _ => .ok ()
      | none => .ok ()
    ({ s with isPlaying := false
              currentIndex := run.1.length - (if run.2.isSome then 1 else 0) },
     run.1, callerResult)

/-! ## Variation generator (`task-generator.ts`) -/

/-- randomVariation: `(Math.random() - 0.5) * m`; the random stream is an
explicit sequence of draws indexed by a counter. -/
def randomVariation (rand : ℕ → JSR) (k : ℕ) (m : JSR) : JSR :=
  JSR.mul (JSR.sub (rand k) ⟨1, 2⟩) m

/-- varyAction: one step of varyActions.  `variedAction = { ...action }` is
a SHALLOW copy, so `variedAction.context` aliases `action.context`; the
mouse and keyboard branches assign a fresh `event` object to the copy
(leaving the original untouched), but the system branch assigns a fresh
record into `variedAction.context.systemState`, which mutates the shared
context.  The result is `(varied action, original action after the call,
next random index)`: the second component records that mutation. -/
def varyAction (rand : ℕ → JSR) (k : ℕ) (action : BrickAction) :
    BrickAction × BrickAction × ℕ :=
  if action.type = "mouse" then
    match action.event with
    | .mouse e =>
      (({ action with
          event := .mouse
            { e with coordinates :=
                { x := JSR.add e.coordinates.x (randomVariation rand k ⟨20, 1⟩)
                  y := JSR.add e.coordinates.y
                    (randomVariation rand (k + 1) ⟨20, 1⟩)
                  screen := none
                  relative := e.coordinates.relative } } }),
        action, k + 2)
    | _ => (action, action, k)
  else if action.type = "keyboard" then
    (({ action with
        event := setEventTimestamp action.event
          (JSR.add (eventTimestamp action.event)
            (randomVariation rand k ⟨100, 1⟩)) }),
      action, k + 1)
  else if action.type = "system" then
    match action.context.systemState with
    | some ss =>
      let newSS := setKeyJS
        (setKeyJS ss "cpuUsage"
          (JSNum.addUndef (getKeyJS ss "cpuUsage")
            (randomVariation rand k ⟨10, 1⟩)))
        "memoryUsage"
        (JSNum.addUndef (getKeyJS ss "memoryUsage")
          (randomVariation rand (k + 1) ⟨100000, 1⟩))
      let newCtx := { action.context with systemState := some newSS }
      ({ action with context := newCtx }, { action with context := newCtx },
        k + 2)
    | none => (action, action, k)
  else (action, action, k)

/-- varyActions over a list, threading the random counter; returns the
varied list, the original list as it stands after the call (system actions
mutated in place), and the next random index. -/
def varyActions (rand : ℕ → JSR) (k : ℕ) :
    List BrickAction → List BrickAction × List BrickAction × ℕ
  | [] => ([], [], k)
  | a :: rest =>
    let s := varyAction rand k a
    let r := varyActions rand s.2.2 rest
    (s.1 :: r.1, s.2.1 :: r.2.1, r.2.2)

/-- varyEnvironment: fresh environment whose screens get a perturbed scale
factor (built entirely of new objects — the input environment is not
mutated). -/
def varyScreens (rand : ℕ → JSR) (k : ℕ) :
    List BrickScreen → List BrickScreen × ℕ
  | [] => ([], k)
  | s :: rest =>
    let s1 := { s with
      scaleFactor := JSR.add s.scaleFactor (randomVariation rand k ⟨1, 10⟩) }
    let r := varyScreens rand (k + 1) rest
    (s1 :: r.1, r.2)

/-- varyEnvironment of the environment descriptor of a task. -/
def varyEnvironment (rand : ℕ → JSR) (k : ℕ) (env : BrickEnvironmentContext) :
    BrickEnvironmentContext × ℕ :=
  let r := varyScreens rand k env.display.screens
  ({ env with display := ⟨r.1⟩ }, r.2)

/-- createVariation: vary the actions and the environment and package a new
recording.  The first component is the returned variation; the second is
the INPUT recording as it stands after the call, recording the
context-aliasing mutation performed by the system branch of
varyActions. -/
def createVariation (rand : ℕ → JSR) (k : ℕ) (uuid now : String)
    (task : TaskRecording) : TaskRecording × TaskRecording :=
  let va := varyActions rand k task.actions
  let ve := varyEnvironment rand va.2.2 task.environment
  ({ id := uuid
     name := task.name ++ " (Variation)"
     description := "Synthetic variation of: " ++ task.description
     actions := va.1
     environment := ve.1
     tags := task.tags ++ ["synthetic"]
     created_at := now },
   { task with actions := va.2.1 })

/-! ## Instruction translator (`mcp.ts`) -/

/-- Higher-level instruction (`MCPInstruction`). -/
structure MCPInstruction where
  type : String
  target : Option String := none
  value : Option String := none
  selector : Option String := none
  systemCall : Option BrickSystemCall := none
  description : String
  context : Option String := none
deriving DecidableEq, Repr

/-- Context update of the translation loop: a focus instruction is emitted
when the action carries a non-empty window title different from the
current context (JavaScript truthiness: the empty string does not trigger
the update). -/
def translateFocus (currentContext : String) (action : BrickAction) :
    String × List MCPInstruction :=
  match action.context.windowTitle with
  | some t =>
    if t ≠ "" && t ≠ currentContext then
      (t, [{ type := "system"
             description := "Focus window: " ++ t
             context := some t }])
    else (currentContext, [])
  | none => (currentContext, [])

/-- Per-action mapping of the translation loop (the `switch` over the
action type), given the already-updated window context. -/
def translateMapped (ctx1 : String) (action : BrickAction) :
    List MCPInstruction :=
  if action.type = "mouse" then
      match action.event with
      | .mouse e =>
        match e.target with
        | some tgt =>
          let label :=
            match tgt.text with
            | some t => if t ≠ "" then t else tgt.element
            | none => tgt.element
          [{ type := "click"
             target := some label
             selector := some tgt.selector
             description := "Click " ++ label
             context := some ctx1 }]
        | none => []
      | _ => []
    else if action.type = "keyboard" then
      match action.event with
      | .keyboard e =>
        if e.type = "textInput" then
          [{ type := "type"
             value := some e.key
             description := "Type \"" ++ e.key ++ "\""
             context := some ctx1 }]
        else []
      | _ => []
    else if action.type = "system" then
      match action.event with
      | .system e =>
        match e.systemCall with
        | some sc =>
          [{ type := "system"
             systemCall := some sc
             description := "Execute system call: " ++ sc.type ++ " - " ++
               sc.function
             context := some ctx1 }]
        | none => []
      | _ => []
    else []

/-- Body of the translation loop for one action: the focus update followed
by the per-action mapping, the latter seeing the updated context. -/
def translateStep (currentContext : String) (action : BrickAction) :
    String × List MCPInstruction :=
  let f := translateFocus currentContext action
  (f.1, f.2 ++ translateMapped f.1 action)

/-- Pre-coalescing translation: fold of `translateStep` over the actions
(the body of `translateToInstructions` before `optimizeInstructions`). -/
def translateToInstructionsPre (actions : List BrickAction) :
    List MCPInstruction :=
  (actions.foldl
    (fun st a =>
      let r := translateStep st.1 a
      (r.1, st.2 ++ r.2))
    ("", [])).2

/-- Grouped `type` instruction pushed by the coalescing pass. -/
def typeGroupInstr (v ctx : String) : MCPInstruction :=
  { type := "type"
    value := some v
    description := "Type \"" ++ v ++ "\""
    context := some ctx }

/-- optimizeInstructions: merge runs of adjacent `type` instructions that
share the current context; a run flushes when a non-`type` instruction or a
context change is seen (and at the end).  JavaScript truthiness again: an
accumulated empty text is not flushed, and an empty-string context does not
replace the current one. -/
def optimizeLoop : List MCPInstruction → List MCPInstruction → String →
    String → List MCPInstruction
  | [], optimized, cti, cc =>
    if cti ≠ "" then optimized ++ [typeGroupInstr cti cc] else optimized
  | inst :: rest, optimized, cti, cc =>
    if inst.type = "type" && inst.context = some cc then
      optimizeLoop rest optimized (cti ++ inst.value.getD "") cc
    else
      let opt1 := if cti ≠ "" then optimized ++ [typeGroupInstr cti cc] else optimized
      let cc1 :=
        match inst.context with
        | some c => if c ≠ "" then c else cc
        | none => cc
      optimizeLoop rest (opt1 ++ [inst]) "" cc1

/-- optimizeInstructions entry point. -/
def optimizeInstructions (instructions : List MCPInstruction) :
    List MCPInstruction :=
  optimizeLoop instructions [] "" ""

/-- translateToInstructions: per-action translation followed by the
coalescing pass. -/
def translateToInstructions (actions : List BrickAction) :
    List MCPInstruction :=
  optimizeInstructions (translateToInstructionsPre actions)

/-! ## Concrete fixtures used by witnesses and counterexamples -/

/-- Empty action context. -/
def ctx0 : BrickActionContext :=
  ⟨none, none, none, none, none, none, none⟩

/-- Keyboard event at a given integer timestamp. -/
def kbEvent (t : ℤ) : BrickEvent :=
  .keyboard
    { type := "keyDown"
      key := "k"
      keyCode := none
      modifiers := none
      repeated := none
      timestamp := ⟨t, 1⟩ }

/-- Keyboard action at a given integer timestamp. -/
def kbAction (t : ℤ) : BrickAction :=
  { id := "a", type := "keyboard", event := kbEvent t, context := ctx0 }

/-- Minimal environment descriptor. -/
def env0 : BrickEnvironmentContext :=
  ⟨⟨"Windows", "11", "x64"⟩, ⟨[]⟩, "en-US", "UTC"⟩

/-- Recording around a list of actions. -/
def mkRec (actions : List BrickAction) : TaskRecording :=
  ⟨"r", "n", "d", actions, env0, "t", []⟩

/-- Seven-action recording spanning exactly 500 ms, so its
optimal-over-total ratio is exactly `350 / 500 = 0.7`. -/
def recRatioPoint7 : TaskRecording :=
  mkRec [kbAction 0, kbAction 100, kbAction 200, kbAction 300, kbAction 400,
    kbAction 450, kbAction 500]

/-- Two-action recording spanning 80 ms (ratio `100 / 80 > 0.7`). -/
def recFast : TaskRecording := mkRec [kbAction 0, kbAction 80]

/-- System call carrying an error payload. -/
def scErr : BrickSystemCall :=
  ⟨"processInfo", "os", "getProcesses", none, none, some "boom", ⟨0, 1⟩⟩

/-- System action whose system call carries an error. -/
def sysErrAction : BrickAction :=
  ⟨"s1", "system", .system ⟨"systemCall", none, none, some scErr, none, ⟨5, 1⟩⟩,
    ctx0⟩

/-- Recording containing one error-flagged system action. -/
def recWithError : TaskRecording :=
  mkRec [kbAction 0, sysErrAction, kbAction 100]

/-- Empty recording. -/
def recEmpty : TaskRecording := mkRec []

/-- Two-action recording whose actions share one timestamp. -/
def recSameStamp : TaskRecording := mkRec [kbAction 7, kbAction 7]

/-! ## Helper lemmas -/

/-- Folding `Math.max` over copies of one value returns that value. -/
theorem foldl_maxB_self (c : JSR) (l : List JSR) (h : ∀ x ∈ l, x = c) :
    l.foldl JSR.maxB c = c := by
  induction l with
  | nil => rfl
  | cons x xs ih =>
    have hx : x = c := h x (List.mem_cons_self _ _)
    subst hx
    have : JSR.maxB x x = x := by unfold JSR.maxB; exact ite_self x
    rw [List.foldl_cons, this]
    exact ih (fun y hy => h y (List.mem_cons_of_mem _ hy))

/-- Folding `Math.min` over copies of one value returns that value. -/
theorem foldl_minB_self (c : JSR) (l : List JSR) (h : ∀ x ∈ l, x = c) :
    l.foldl JSR.minB c = c := by
  induction l with
  | nil => rfl
  | cons x xs ih =>
    have hx : x = c := h x (List.mem_cons_self _ _)
    subst hx
    have : JSR.minB x x = x := by unfold JSR.minB; exact ite_self x
    rw [List.foldl_cons, this]
    exact ih (fun y hy => h y (List.mem_cons_of_mem _ hy))

/-- Capping at 1 does not change whether a finite value exceeds 0.7,
provided the denominator of the value is positive. -/
theorem gtB_jsMin_one (r : JSR) (hd : 0 < r.d) :
    JSNum.gtB (JSNum.jsMin ⟨1, 1⟩ (.num r)) ⟨7, 10⟩ =
      JSNum.gtB (.num r) ⟨7, 10⟩ := by
  simp only [JSNum.jsMin]
  split_ifs with h
  · rfl
  · have h1 : ¬ (r.n * (1 : ℤ) < 1 * (r.d : ℤ)) := by
      intro hcon
      exact h (by unfold JSR.ltB; exact decide_eq_true hcon)
    have hd1 : (1 : ℤ) ≤ (r.d : ℤ) := by exact_mod_cast hd
    have hgoal : (7 : ℤ) * (r.d : ℤ) < r.n * 10 := by omega
    show JSNum.gtB (.num ⟨1, 1⟩) ⟨7, 10⟩ = JSNum.gtB (.num r) ⟨7, 10⟩
    have hr : JSNum.gtB (.num r) ⟨7, 10⟩ = true := decide_eq_true hgoal
    rw [hr]
    decide

/-! ## Claim C1 -/

/-- C1, counterexample.  On `recRatioPoint7` the completion predicate
holds, the cleanliness score is at least 0.8, and the efficiency ratio
`optimalTime / totalTime` equals 0.7 exactly (so it is at least 0.7) —
yet the recording does NOT qualify, because the source compares with the
strict `> 0.7`, not the claimed `>= 0.7`. -/
theorem C1_counterexample :
    hasCompletedSuccessfully recRatioPoint7 = true ∧
    JSNum.geB (calculateCleanlinessScore recRatioPoint7.actions) ⟨8, 10⟩ = true ∧
    JSNum.geB
      (JSNum.jsDiv (calculateOptimalTime recRatioPoint7.actions)
        (getTotalExecutionTime recRatioPoint7.actions)) ⟨7, 10⟩ = true ∧
    hasPositiveFeedback recRatioPoint7 = false := by
  refine ⟨by decide, by decide, by decide, by decide⟩

/-- C1, amended: for a recording that passes the completion predicate,
whose cleanliness check passes (strictly above 0.8), and whose total
execution time is positive, the recording qualifies if and only if
`optimalTime / totalTime` is STRICTLY greater than 0.7 (the min-with-1 cap
does not change this comparison).  In particular moving the ratio from
0.69 to exactly 0.70 does not flip qualification; moving it strictly above
0.70 does. -/
theorem C1_amended (task : TaskRecording)
    (hc : hasCompletedSuccessfully task = true)
    (hclean : hasCleanExecution task = true)
    (hpos : 0 < (getTotalExecutionTime task.actions).n) :
    hasPositiveFeedback task = true ↔
      JSNum.gtB
        (JSNum.jsDiv (calculateOptimalTime task.actions)
          (getTotalExecutionTime task.actions)) ⟨7, 10⟩ = true := by
  have hne : task.actions.isEmpty = false := by
    unfold hasCompletedSuccessfully at hc
    rw [Bool.and_eq_true, decide_eq_true_eq] at hc
    exact List.isEmpty_eq_false.mpr (List.length_pos.mp hc.1)
  unfold hasPositiveFeedback
  rw [hc, hclean]
  simp only [Bool.true_and, Bool.and_true]
  unfold hasOptimalTiming calculateExecutionEfficiency
  rw [hne]
  simp only [Bool.false_eq_true, if_false]
  have h0 : ¬ (getTotalExecutionTime task.actions).n = 0 := by omega
  unfold JSNum.jsDiv
  rw [if_neg h0]
  have hd : 0 < (JSR.div (calculateOptimalTime task.actions)
      (getTotalExecutionTime task.actions)).d := by
    unfold JSR.div
    rw [if_pos (le_of_lt hpos)]
    show 0 < (calculateOptimalTime task.actions).d *
      (getTotalExecutionTime task.actions).n.toNat
    have : 0 < (getTotalExecutionTime task.actions).n.toNat := by omega
    simpa [calculateOptimalTime] using this
  rw [gtB_jsMin_one _ hd]

/-- C1, witness: `recFast` satisfies every hypothesis of `C1_amended`, and
the theorem applied to it yields the qualification equivalence. -/
theorem C1_amended_witness :
    hasCompletedSuccessfully recFast = true ∧
    hasCleanExecution recFast = true ∧
    0 < (getTotalExecutionTime recFast.actions).n ∧
    (hasPositiveFeedback recFast = true ↔
      JSNum.gtB
        (JSNum.jsDiv (calculateOptimalTime recFast.actions)
          (getTotalExecutionTime recFast.actions)) ⟨7, 10⟩ = true) :=
  ⟨by decide, by decide, by decide,
    C1_amended recFast (by decide) (by decide) (by decide)⟩

/-! ## Claim C8 -/

/-- C8: a recording containing at least one system action whose system
call carries an error payload never passes the success check, whatever its
efficiency and cleanliness scores evaluate to. -/
theorem C8_error_action_never_pattern (task : TaskRecording) (a : BrickAction)
    (e : BrickSystemEvent) (sc : BrickSystemCall) (msg : String)
    (ha : a ∈ task.actions) (hty : a.type = "system")
    (hev : a.event = .system e) (hsc : e.systemCall = some sc)
    (herr : sc.error = some msg) :
    hasPositiveFeedback task = false := by
  have hErr : isErrorAction a = true := by
    unfold isErrorAction
    rw [if_pos hty, hev]
    show (match e.systemCall with
          | some sc => sc.error.isSome
          | none => false) = true
    rw [hsc]
    show sc.error.isSome = true
    rw [herr]
    rfl
  have hAny : task.actions.any isErrorAction = true :=
    List.any_eq_true.mpr ⟨a, ha, hErr⟩
  unfold hasPositiveFeedback hasCompletedSuccessfully
  rw [hAny]
  simp

/-- C8, witness: the theorem applied to `recWithError` and its embedded
error action. -/
theorem C8_witness : hasPositiveFeedback recWithError = false :=
  C8_error_action_never_pattern recWithError sysErrAction
    ⟨"systemCall", none, none, some scErr, none, ⟨5, 1⟩⟩ scErr "boom"
    (by decide) rfl rfl rfl rfl

/-! ## Claim C9 -/

/-- C9: a recording with zero actions never qualifies — the verdict is
false because the completion conjunct already fails on the length check —
even though the unguarded cleanliness division `0 / 0` evaluates to `NaN`
(whose comparison against 0.8 is false as well, so the `NaN` branch never
decides the final verdict). -/
theorem C9_empty_recording (task : TaskRecording) (h : task.actions = []) :
    hasPositiveFeedback task = false ∧
    calculateCleanlinessScore task.actions = .nan := by
  unfold hasPositiveFeedback hasCompletedSuccessfully hasOptimalTiming
    hasCleanExecution
  rw [h]
  exact ⟨by decide, by decide⟩

/-- C9, witness: the theorem applied to the empty recording. -/
theorem C9_witness :
    hasPositiveFeedback recEmpty = false ∧
    calculateCleanlinessScore recEmpty.actions = .nan :=
  C9_empty_recording recEmpty rfl

/-! ## Claim C10 -/

/-- C10: on a non-empty recording whose actions all carry one and the same
event timestamp, the total time is exactly zero, the unguarded division
yields `Infinity`, the min-with-1 cap brings the efficiency score to
exactly 1, and the efficiency predicate passes. -/
theorem C10_zero_span_efficiency_one (task : TaskRecording) (c : JSR)
    (hne : task.actions ≠ [])
    (hts : ∀ a ∈ task.actions, eventTimestamp a.event = c) :
    calculateExecutionEfficiency task.actions = .num ⟨1, 1⟩ ∧
    hasOptimalTiming task = true := by
  have htotal : (getTotalExecutionTime task.actions).n = 0 := by
    unfold getTotalExecutionTime
    rcases hl : task.actions with _ | ⟨a, l⟩
    · exact absurd hl hne
    · simp only [List.map_cons]
      have hac : a ∈ task.actions := by rw [hl]; exact List.mem_cons_self _ _
      have hmem : ∀ x ∈ l.map (fun a => eventTimestamp a.event), x = c := by
        intro x hx
        rcases List.mem_map.mp hx with ⟨b, hb, hbx⟩
        rw [← hbx]
        exact hts b (by rw [hl]; exact List.mem_cons_of_mem _ hb)
      have hmax : (l.map (fun a => eventTimestamp a.event)).foldl JSR.maxB
          (eventTimestamp a.event) = c := by
        rw [hts a hac]
        exact foldl_maxB_self c _ hmem
      have hmin : (l.map (fun a => eventTimestamp a.event)).foldl JSR.minB
          (eventTimestamp a.event) = c := by
        rw [hts a hac]
        exact foldl_minB_self c _ hmem
      rw [hmax, hmin]
      show c.n * (c.d : ℤ) - c.n * (c.d : ℤ) = 0
      ring
  have hlen : 0 < task.actions.length := List.length_pos.mpr hne
  have hopt : 0 < (calculateOptimalTime task.actions).n := by
    unfold calculateOptimalTime
    show (0 : ℤ) < (task.actions.length : ℤ) * 50
    positivity
  have heff : calculateExecutionEfficiency task.actions = .num ⟨1, 1⟩ := by
    unfold calculateExecutionEfficiency
    have hne2 : task.actions.isEmpty = false := List.isEmpty_eq_false.mpr hne
    rw [hne2]
    simp only [Bool.false_eq_true, if_false]
    unfold JSNum.jsDiv
    rw [if_pos htotal, if_neg (by omega), if_pos hopt]
    rfl
  refine ⟨heff, ?_⟩
  unfold hasOptimalTiming
  rw [heff]
  decide

/-- C10, witness: the theorem applied to `recSameStamp`, whose two actions
share the timestamp 7. -/
theorem C10_witness :
    calculateExecutionEfficiency recSameStamp.actions = .num ⟨1, 1⟩ ∧
    hasOptimalTiming recSameStamp = true :=
  C10_zero_span_efficiency_one recSameStamp ⟨7, 1⟩ (by decide) (by decide)

/-! ## Claim C2 -/

/-- Pattern with the given identifier and execution time. -/
def patDefault (i : String) (et : ℤ) : TaskPattern :=
  { id := i
    actionSequence := ["mouse:click"]
    successMetrics :=
      { completionRate := ⟨1, 1⟩
        executionTime := .num ⟨et, 1⟩
        errorRate := ⟨0, 1⟩
        userSatisfaction := .num ⟨1, 2⟩ }
    contextFeatures := ⟨["Windows", "en-US", "UTC"], [], []⟩
    emergentBehaviors := [] }

/-- Three-pattern store. -/
def store3 : List TaskPattern :=
  [patDefault "p1" 1000, patDefault "p2" 2000, patDefault "p3" 3000]

/-- Hints with no platform constraint (every pattern is relevant). -/
def hints0 : ContextHints := {}

/-- Stable insertion preserves length. -/
theorem length_orderedInsertBy (le : TaskPattern → TaskPattern → Bool)
    (x : TaskPattern) (l : List TaskPattern) :
    (orderedInsertBy le x l).length = l.length + 1 := by
  induction l with
  | nil => rfl
  | cons y ys ih =>
    unfold orderedInsertBy
    split_ifs
    · rfl
    · simp [ih]

/-- The pattern sort preserves length. -/
theorem length_sortPatternsBy (le : TaskPattern → TaskPattern → Bool)
    (l : List TaskPattern) : (sortPatternsBy le l).length = l.length := by
  induction l with
  | nil => rfl
  | cons y ys ih =>
    unfold sortPatternsBy
    rw [length_orderedInsertBy, ih]
    rfl

/-- C2, counterexample.  Against a store of 3 patterns, all relevant
(no platform hint), `complexityLevel = 0.5` selects
`max(1, Math.floor(0.5 * 3)) = 1` pattern, not the claimed
`max(1, ceil(0.5 * 3)) = 2`. -/
theorem C2_counterexample :
    (selectRelevantPatterns store3 hints0 ⟨1, 2⟩).length = 1 ∧
    (selectRelevantPatterns store3 hints0 ⟨1, 2⟩).length ≠ 2 :=
  ⟨by decide, by decide⟩

/-- C2, amended: the selection keeps the top
`max(1, Math.floor(complexityLevel × |whole store|))` of the relevant
patterns (floor, not ceiling, and the multiplier counts the WHOLE store,
not only the relevant patterns); consequently with `complexityLevel = 1`
exactly the K relevant patterns are selected (for any K, including 0), and
for every complexity level at least one pattern is selected as soon as at
least one pattern is relevant. -/
theorem C2_amended (store : List TaskPattern) (hints : ContextHints)
    (c : JSR) :
    (selectRelevantPatterns store hints c).length =
      min (Int.toNat (max 1 (JSR.floor (JSR.mul c (JSR.ofNat store.length)))))
        (store.filter (fun p => isPatternRelevant p hints)).length ∧
    (c.n = (c.d : ℤ) → 0 < c.d →
      (selectRelevantPatterns store hints c).length =
        (store.filter (fun p => isPatternRelevant p hints)).length) ∧
    ((store.filter (fun p => isPatternRelevant p hints)) ≠ [] →
      1 ≤ (selectRelevantPatterns store hints c).length) := by
  have hlen : (selectRelevantPatterns store hints c).length =
      min (Int.toNat (max 1 (JSR.floor (JSR.mul c (JSR.ofNat store.length)))))
        (store.filter (fun p => isPatternRelevant p hints)).length := by
    unfold selectRelevantPatterns
    rw [List.length_take, length_sortPatternsBy]
  refine ⟨hlen, ?_, ?_⟩
  · intro hone hdpos
    rw [hlen]
    have hfloor : JSR.floor (JSR.mul c (JSR.ofNat store.length)) =
        (store.length : ℤ) := by
      unfold JSR.floor JSR.mul JSR.ofNat
      show (c.n * (store.length : ℤ)).fdiv ((c.d * 1 : ℕ) : ℤ) = _
      rw [hone]
      have : ((c.d * 1 : ℕ) : ℤ) = (c.d : ℤ) := by push_cast; ring
      rw [this]
      exact Int.mul_fdiv_cancel_left _ (by exact_mod_cast hdpos.ne.symm)
    rw [hfloor]
    have hle : (store.filter (fun p => isPatternRelevant p hints)).length ≤
        store.length := List.length_filter_le _ _
    omega
  · intro hne
    have hpos : 0 < (store.filter (fun p => isPatternRelevant p hints)).length :=
      List.length_pos.mpr hne
    rw [hlen]
    omega

/-- C2, witness.  Applied at `complexityLevel = 1` the amended theorem
gives exactly the 3 relevant patterns of `store3`; applied at
`complexityLevel = 0.5` (a positive level arbitrarily close to 0 behaves
the same) it still selects at least one pattern. -/
theorem C2_amended_witness :
    (selectRelevantPatterns store3 hints0 ⟨1, 1⟩).length =
      (store3.filter (fun p => isPatternRelevant p hints0)).length ∧
    1 ≤ (selectRelevantPatterns store3 hints0 ⟨1, 2⟩).length :=
  ⟨(C2_amended store3 hints0 ⟨1, 1⟩).2.1 rfl (by decide),
   (C2_amended store3 hints0 ⟨1, 2⟩).2.2 (by decide)⟩

/-! ## Claims C3 and C6 -/

/-- When every dispatch succeeds, the loop attempts every action in order
and no error escapes. -/
theorem playRun_all_ok (dispatch : BrickAction → Except String Unit)
    (l : List BrickAction) (h : ∀ a ∈ l, dispatch a = .ok ()) :
    playRun dispatch l = (l, none) := by
  induction l with
  | nil => rfl
  | cons a rest ih =>
    unfold playRun
    rw [h a (List.mem_cons_self _ _),
      ih (fun b hb => h b (List.mem_cons_of_mem _ hb))]

/-- When the dispatches before `bad` succeed and `bad` fails, the loop
attempts exactly the prefix up to and including `bad` and the error
escapes the loop. -/
theorem playRun_error (dispatch : BrickAction → Except String Unit)
    (pre : List BrickAction) (bad : BrickAction) (post : List BrickAction)
    (e : String) (hpre : ∀ a ∈ pre, dispatch a = .ok ())
    (hbad : dispatch bad = .error e) :
    playRun dispatch (pre ++ bad :: post) = (pre ++ [bad], some e) := by
  induction pre with
  | nil =>
    show playRun dispatch (bad :: post) = ([bad], some e)
    simp only [playRun]
    rw [hbad]
  | cons a rest ih =>
    show playRun dispatch (a :: (rest ++ bad :: post)) = _
    simp only [playRun]
    rw [hpre a (List.mem_cons_self _ _),
      ih (fun b hb => hpre b (List.mem_cons_of_mem _ hb))]
    rfl

/-- C6: started from the Idle state with every dispatch succeeding (and,
in this single-threaded model, no competing stop()), play() dispatches
exactly the loaded actions, in their original order, one at a time; and
play() is a no-op returning immediately when already Playing or when the
loaded sequence is empty. -/
theorem C6_play_dispatches_all (dispatch : BrickAction → Except String Unit)
    (s : BrickPlayerState) :
    (s.isPlaying = false → (∀ a ∈ s.actions, dispatch a = .ok ()) →
      (BrickPlayer.play dispatch s).2.1 = s.actions) ∧
    (s.isPlaying = true → BrickPlayer.play dispatch s = (s, [], .ok ())) ∧
    (s.actions = [] → BrickPlayer.play dispatch s = (s, [], .ok ())) := by
  refine ⟨?_, ?_, ?_⟩
  · intro hidle hok
    unfold BrickPlayer.play
    rw [hidle]
    simp only [Bool.false_or]
    rcases he : s.actions.isEmpty with _ | _
    · simp only [Bool.false_eq_true, if_false]
      rw [playRun_all_ok dispatch s.actions hok]
    · simp only [if_true]
      exact (List.isEmpty_iff.mp he).symm
  · intro hplaying
    unfold BrickPlayer.play
    rw [hplaying]
    rfl
  · intro hempty
    unfold BrickPlayer.play
    have he : s.actions.isEmpty = true := List.isEmpty_iff.mpr hempty
    rw [he, Bool.or_true]
    rfl

/-- Dispatch oracle that always succeeds. -/
def dispatchOk : BrickAction → Except String Unit := fun _ => .ok ()

/-- Idle player loaded with two actions. -/
def player0 : BrickPlayerState := ⟨[kbAction 0, kbAction 80], false, 0⟩

/-- C6, witness: on the concrete idle two-action player every action is
dispatched in order, and the same player marked Playing is left alone. -/
theorem C6_witness :
    (BrickPlayer.play dispatchOk player0).2.1 = player0.actions ∧
    BrickPlayer.play dispatchOk ⟨player0.actions, true, 0⟩ =
      (⟨player0.actions, true, 0⟩, [], .ok ()) :=
  ⟨(C6_play_dispatches_all dispatchOk player0).1 rfl (fun _ _ => rfl),
   (C6_play_dispatches_all dispatchOk ⟨player0.actions, true, 0⟩).2.1 rfl⟩

/-- Dispatch oracle that always fails. -/
def dispatchFail : BrickAction → Except String Unit :=
  fun _ => .error "dispatch failed"

/-- C3, counterexample.  With a dispatch that fails on the very first
action of the two loaded actions, the second action is indeed never
dispatched — but the promise returned by play() resolves normally: the
error is caught and logged inside play(), NOT surfaced to the caller, so
the surfaced-to-the-caller half of the claim is false on the code. -/
theorem C3_counterexample :
    dispatchFail (kbAction 0) = .error "dispatch failed" ∧
    (BrickPlayer.play dispatchFail player0).2.1 = [kbAction 0] ∧
    (BrickPlayer.play dispatchFail player0).2.2 = .ok () :=
  ⟨rfl, rfl, rfl⟩

/-- C3, amended: if dispatching the action at index i fails (all earlier
dispatches succeeding), the actions at indices greater than i are never
dispatched — but the error is caught and logged inside play(), which
resolves normally; it is not surfaced to the caller. -/
theorem C3_amended (dispatch : BrickAction → Except String Unit)
    (s : BrickPlayerState) (pre : List BrickAction) (bad : BrickAction)
    (post : List BrickAction) (e : String)
    (hidle : s.isPlaying = false) (hacts : s.actions = pre ++ bad :: post)
    (hpre : ∀ a ∈ pre, dispatch a = .ok ())
    (hbad : dispatch bad = .error e) :
    (BrickPlayer.play dispatch s).2.1 = pre ++ [bad] ∧
    (BrickPlayer.play dispatch s).2.2 = .ok () := by
  unfold BrickPlayer.play
  have hne : s.actions.isEmpty = false := by
    rw [hacts]
    cases pre <;> rfl
  have hcond : (s.isPlaying || s.actions.isEmpty) = false := by
    rw [hidle, hne]; rfl
  rw [hcond]
  simp only [Bool.false_eq_true, if_false]
  rw [hacts, playRun_error dispatch pre bad post e hpre hbad]
  exact ⟨rfl, rfl⟩

/-- Dispatch oracle succeeding exactly on the first fixture action. -/
def dispatchFirstOk : BrickAction → Except String Unit :=
  fun a => if a = kbAction 0 then .ok () else .error "dispatch failed"

/-- C3, witness: on the concrete two-action player whose second dispatch
fails, only the first two dispatch attempts happen and the caller sees a
normal resolution. -/
theorem C3_amended_witness :
    (BrickPlayer.play dispatchFirstOk player0).2.1 =
      [kbAction 0] ++ [kbAction 80] ∧
    (BrickPlayer.play dispatchFirstOk player0).2.2 = .ok () :=
  C3_amended dispatchFirstOk player0 [kbAction 0] (kbAction 80) []
    "dispatch failed" rfl rfl
    (fun a ha => by rw [List.mem_singleton.mp ha]; rfl) rfl

/-! ## Claims C5 and C7 -/

/-- System-state record as the recorder produces it. -/
def ssRecord : List (String × JSNum) :=
  [("cpuUsage", .num ⟨10, 1⟩), ("memoryUsage", .num ⟨1000, 1⟩),
   ("activeProcesses", .num ⟨1, 1⟩), ("activeServices", .num ⟨0, 1⟩)]

/-- System action carrying a system-state snapshot in its context. -/
def sysAction0 : BrickAction :=
  ⟨"sys0", "system", .system ⟨"systemCall", none, none, none, none, ⟨0, 1⟩⟩,
    { ctx0 with systemState := some ssRecord }⟩

/-- One-action recording around `sysAction0`. -/
def recSys : TaskRecording := mkRec [sysAction0]

/-- Random stream constantly 1 (every perturbation is `+m/2`, nonzero). -/
def randOne : ℕ → JSR := fun _ => ⟨1, 1⟩

/-- C5: the aliasing bug evaluated at a concrete failing input.  Because
`variedAction = { ...action }` is a shallow copy, the assignment of the
system branch `variedAction.context.systemState = { ... }` writes through the
shared context object: after `createVariation` returns, the BASE
system action of the BASE recording carries the perturbed metrics — its
`systemState` is no longer the one it was created with, contradicting the
claim (and the immutability of Recordings per the spec).  The second
component of the embedded `createVariation` is the input recording as it
stands after the call. -/
theorem C5_mutates_input :
    (createVariation randOne 0 "u" "t" recSys).2 ≠ recSys ∧
    ((createVariation randOne 0 "u" "t" recSys).2.actions.map
        (fun a => a.context.systemState)) ≠
      recSys.actions.map (fun a => a.context.systemState) ∧
    (createVariation randOne 0 "u" "t" recSys).2.actions.map
        (fun a => a.context.systemState) =
      [some [("cpuUsage", .num ⟨30, 2⟩), ("memoryUsage", .num ⟨102000, 2⟩),
        ("activeProcesses", .num ⟨1, 1⟩), ("activeServices", .num ⟨0, 1⟩)]] :=
  ⟨by decide, by decide, by decide⟩

/-- Type/subtype tag pair of an action. -/
def eventTypeTag : BrickEvent → String
  | .mouse e => e.type
  | .keyboard e => e.type
  | .system e => e.type
  | .bare _ => ""

/-- The `(type, event subtype)` pair of an action. -/
def actionTypeSubtype (a : BrickAction) : String × String :=
  (a.type, eventTypeTag a.event)

/-- Erasure of exactly the numeric payload fields that the variation
generator perturbs: the coordinates of a mouse action, the event timestamp
of a keyboard action, and the system-state record of a system action
(the `relative` flag of the coordinates is kept, since the source keeps
it). -/
def eraseVariedNumeric (a : BrickAction) : BrickAction :=
  { a with
    event :=
      if a.type = "mouse" then
        match a.event with
        | .mouse e =>
          .mouse { e with coordinates :=
            { x := ⟨0, 1⟩, y := ⟨0, 1⟩, screen := none
              relative := e.coordinates.relative } }
        | ev => ev
      else if a.type = "keyboard" then setEventTimestamp a.event ⟨0, 1⟩
      else a.event
    context :=
      if a.type = "system" then { a.context with systemState := none }
      else a.context }

/-- Erasure of the one numeric environment field the variation generator
perturbs. -/
def eraseScale (s : BrickScreen) : BrickScreen := { s with scaleFactor := ⟨0, 1⟩ }

/-- Setting a timestamp twice keeps only the last one. -/
theorem setEventTimestamp_twice (ev : BrickEvent) (t t' : JSR) :
    setEventTimestamp (setEventTimestamp ev t) t' = setEventTimestamp ev t' := by
  cases ev <;> rfl

/-- The event type tag survives a timestamp update. -/
theorem eventTypeTag_setEventTimestamp (ev : BrickEvent) (t : JSR) :
    eventTypeTag (setEventTimestamp ev t) = eventTypeTag ev := by
  cases ev <;> rfl

/-- One variation step preserves the type/subtype pair and the erasure of
the varied action. -/
theorem varyAction_shape (rand : ℕ → JSR) (k : ℕ) (a : BrickAction) :
    actionTypeSubtype (varyAction rand k a).1 = actionTypeSubtype a ∧
    eraseVariedNumeric (varyAction rand k a).1 = eraseVariedNumeric a := by
  obtain ⟨aid, aty, aev, actx⟩ := a
  unfold varyAction
  dsimp only
  split_ifs with hm hk hs
  · subst hm
    cases aev with
    | mouse e => exact ⟨rfl, rfl⟩
    | keyboard e => exact ⟨rfl, rfl⟩
    | system e => exact ⟨rfl, rfl⟩
    | bare t => exact ⟨rfl, rfl⟩
  · subst hk
    refine ⟨?_, ?_⟩
    · show ("keyboard", eventTypeTag (setEventTimestamp aev _)) =
        ("keyboard", eventTypeTag aev)
      rw [eventTypeTag_setEventTimestamp]
    · show (⟨aid, "keyboard",
          setEventTimestamp (setEventTimestamp aev
            (JSR.add (eventTimestamp aev) (randomVariation rand k ⟨100, 1⟩)))
            ⟨0, 1⟩, actx⟩ : BrickAction) =
        ⟨aid, "keyboard", setEventTimestamp aev ⟨0, 1⟩, actx⟩
      rw [setEventTimestamp_twice]
  · subst hs
    cases hss : actx.systemState with
    | some ss => exact ⟨rfl, rfl⟩
    | none => exact ⟨rfl, rfl⟩
  · exact ⟨rfl, rfl⟩

/-- List version of `varyAction_shape`. -/
theorem varyActions_shape (rand : ℕ → JSR) (k : ℕ) (l : List BrickAction) :
    (varyActions rand k l).1.length = l.length ∧
    (varyActions rand k l).1.map actionTypeSubtype = l.map actionTypeSubtype ∧
    (varyActions rand k l).1.map eraseVariedNumeric =
      l.map eraseVariedNumeric := by
  induction l generalizing k with
  | nil => exact ⟨rfl, rfl, rfl⟩
  | cons a rest ih =>
    have hstep := varyAction_shape rand k a
    have ihr := ih (varyAction rand k a).2.2
    unfold varyActions
    refine ⟨?_, ?_, ?_⟩
    · show (varyActions rand _ rest).1.length + 1 = rest.length + 1
      rw [ihr.1]
    · show actionTypeSubtype (varyAction rand k a).1 ::
        (varyActions rand _ rest).1.map actionTypeSubtype = _
      rw [hstep.1, ihr.2.1]
      rfl
    · show eraseVariedNumeric (varyAction rand k a).1 ::
        (varyActions rand _ rest).1.map eraseVariedNumeric = _
      rw [hstep.2, ihr.2.2]
      rfl

/-- Screen variation preserves length and the scale-factor erasure. -/
theorem varyScreens_shape (rand : ℕ → JSR) (k : ℕ) (l : List BrickScreen) :
    (varyScreens rand k l).1.length = l.length ∧
    (varyScreens rand k l).1.map eraseScale = l.map eraseScale := by
  induction l generalizing k with
  | nil => exact ⟨rfl, rfl⟩
  | cons s rest ih =>
    have ihr := ih (k + 1)
    unfold varyScreens
    refine ⟨?_, ?_⟩
    · show (varyScreens rand (k + 1) rest).1.length + 1 = rest.length + 1
      rw [ihr.1]
    · show eraseScale _ :: (varyScreens rand (k + 1) rest).1.map eraseScale = _
      rw [ihr.2]
      rfl

/-- C7: whatever the random draws, the output of createVariation keeps the
action count, the action order and the type/subtype pair of every action
of the base recording; outside the erased numeric payload fields (mouse
coordinates, keyboard timestamps, system-state metrics) every action is
unchanged, and the environment differs at most in the per-screen scale
factor. -/
theorem C7_variation_preserves_shape (rand : ℕ → JSR) (k : ℕ)
    (uuid now : String) (task : TaskRecording) :
    ((createVariation rand k uuid now task).1.actions.length =
      task.actions.length) ∧
    ((createVariation rand k uuid now task).1.actions.map actionTypeSubtype =
      task.actions.map actionTypeSubtype) ∧
    ((createVariation rand k uuid now task).1.actions.map eraseVariedNumeric =
      task.actions.map eraseVariedNumeric) ∧
    ((createVariation rand k uuid now task).1.environment.os =
      task.environment.os) ∧
    ((createVariation rand k uuid now task).1.environment.locale =
      task.environment.locale) ∧
    ((createVariation rand k uuid now task).1.environment.timezone =
      task.environment.timezone) ∧
    ((createVariation rand k uuid now task).1.environment.display.screens.length
      = task.environment.display.screens.length) ∧
    ((createVariation rand k uuid now task).1.environment.display.screens.map
        eraseScale =
      task.environment.display.screens.map eraseScale) := by
  have hva := varyActions_shape rand k task.actions
  have hvs := varyScreens_shape rand (varyActions rand k task.actions).2.2
    task.environment.display.screens
  exact ⟨hva.1, hva.2.1, hva.2.2, rfl, rfl, rfl, hvs.1, hvs.2⟩

/-! ## Claim C4 -/

/-- Modelled from the spec (refinement side of C4): whether an action
belongs to one of the three instruction-producing categories — a mouse
action carrying a target payload, a keyboard text-input action, or a
system action carrying a system-call payload. -/
def specQualifies (a : BrickAction) : Bool :=
  if a.type = "mouse" then
    match a.event with
    | .mouse e => e.target.isSome
    | _ => false
  else if a.type = "keyboard" then
    match a.event with
    | .keyboard e => e.type = "textInput"
    | _ => false
  else if a.type = "system" then
    match a.event with
    | .system e => e.systemCall.isSome
    | _ => false
  else false

/-- The focus part of one translation step emits at most one
instruction. -/
theorem translateFocus_len (ctx : String) (a : BrickAction) :
    (translateFocus ctx a).2.length ≤ 1 := by
  unfold translateFocus
  rcases a.context.windowTitle with _ | t
  · exact Nat.zero_le 1
  · dsimp only
    split_ifs
    · exact Nat.le_refl 1
    · exact Nat.zero_le 1

/-- The per-action mapping emits at most one instruction, and exactly one
precisely on the qualified categories. -/
theorem translateMapped_len (c : String) (a : BrickAction) :
    (translateMapped c a).length ≤ 1 ∧
    ((translateMapped c a).length = 1 ↔ specQualifies a = true) := by
  obtain ⟨aid, aty, aev, actx⟩ := a
  unfold translateMapped specQualifies
  dsimp only
  split_ifs with h1 h2 h3
  · cases aev with
    | mouse e =>
      obtain ⟨ety, eco, etgt, ebt, epr, ets⟩ := e
      cases etgt with
      | some tgt => exact ⟨by simp, by simp⟩
      | none => exact ⟨by simp, by simp⟩
    | keyboard e => exact ⟨by simp, by simp⟩
    | system e => exact ⟨by simp, by simp⟩
    | bare t0 => exact ⟨by simp, by simp⟩
  · cases aev with
    | mouse e => exact ⟨by simp, by simp⟩
    | keyboard e =>
      obtain ⟨ety, ekey, ekc, emods, erep, ets⟩ := e
      by_cases ht : ety = "textInput"
      · subst ht
        exact ⟨by simp, by simp⟩
      · exact ⟨by simp [ht], by simp [ht]⟩
    | system e => exact ⟨by simp, by simp⟩
    | bare t0 => exact ⟨by simp, by simp⟩
  · cases aev with
    | mouse e => exact ⟨by simp, by simp⟩
    | keyboard e => exact ⟨by simp, by simp⟩
    | system e =>
      obtain ⟨ety, eproc, esvc, esc, ewin, ets⟩ := e
      cases esc with
      | some sc => exact ⟨by simp, by simp⟩
      | none => exact ⟨by simp, by simp⟩
    | bare t0 => exact ⟨by simp, by simp⟩
  · exact ⟨by simp, by simp [h1, h2, h3]⟩

/-- C4, amended: before the coalescing pass each action contributes the
implicit focus-window instruction (on a window-title change) followed by
AT MOST one mapped instruction; the mapped instruction exists — and then
is unique — exactly when the action is a mouse action CARRYING A TARGET
payload, a keyboard text-input action, or a system action carrying a
system call; every other action (in particular a mouse action without a
target) maps to no instruction.  When the instruction exists it has the
claimed shape: the click carries the element text (when non-empty) or the
element identifier as its target, the type carries the key payload as its
value, and the system instruction carries the call through. -/
theorem C4_translation_refines (ctx : String) (a : BrickAction) :
    translateStep ctx a =
      ((translateFocus ctx a).1,
        (translateFocus ctx a).2 ++
          translateMapped (translateFocus ctx a).1 a) ∧
    (translateFocus ctx a).2.length ≤ 1 ∧
    (translateMapped (translateFocus ctx a).1 a).length ≤ 1 ∧
    ((translateMapped (translateFocus ctx a).1 a).length = 1 ↔
      specQualifies a = true) ∧
    (∀ e tgt, a.type = "mouse" → a.event = .mouse e → e.target = some tgt →
      ∃ label,
        ((∃ s, tgt.text = some s ∧ s ≠ "" ∧ label = s) ∨ label = tgt.element) ∧
        translateMapped (translateFocus ctx a).1 a =
          [⟨"click", some label, none, some tgt.selector, none,
            "Click " ++ label, some (translateFocus ctx a).1⟩]) ∧
    (∀ e, a.type = "keyboard" → a.event = .keyboard e → e.type = "textInput" →
      translateMapped (translateFocus ctx a).1 a =
        [⟨"type", none, some e.key, none, none,
          "Type \"" ++ e.key ++ "\"", some (translateFocus ctx a).1⟩]) ∧
    (∀ e sc, a.type = "system" → a.event = .system e → e.systemCall = some sc →
      translateMapped (translateFocus ctx a).1 a =
        [⟨"system", none, none, none, some sc,
          "Execute system call: " ++ sc.type ++ " - " ++ sc.function,
          some (translateFocus ctx a).1⟩]) := by
  refine ⟨rfl, translateFocus_len ctx a, (translateMapped_len _ a).1,
    (translateMapped_len _ a).2, ?_, ?_, ?_⟩
  · intro e tgt hty hev htgt
    obtain ⟨aid, aty, aev, actx⟩ := a
    dsimp only at hty hev ⊢
    subst hty
    subst hev
    have hred : translateMapped
        (translateFocus ctx ⟨aid, "mouse", BrickEvent.mouse e, actx⟩).1
        ⟨aid, "mouse", BrickEvent.mouse e, actx⟩ =
        (match e.target with
         | some tgt =>
           [⟨"click",
             some (match tgt.text with
                   | some t => if t ≠ "" then t else tgt.element
                   | none => tgt.element), none, some tgt.selector, none,
             "Click " ++ (match tgt.text with
                          | some t => if t ≠ "" then t else tgt.element
                          | none => tgt.element),
             some (translateFocus ctx
               ⟨aid, "mouse", BrickEvent.mouse e, actx⟩).1⟩]
         | none => []) := rfl
    rw [hred, htgt]
    dsimp only
    rcases htx : tgt.text with _ | s
    · exact ⟨tgt.element, Or.inr rfl, rfl⟩
    · by_cases hs : s ≠ ""
      · refine ⟨s, Or.inl ⟨s, rfl, hs, rfl⟩, ?_⟩
        dsimp only
        rw [if_pos hs]
      · refine ⟨tgt.element, Or.inr rfl, ?_⟩
        dsimp only
        rw [if_neg hs]
  · intro e hty hev ht
    obtain ⟨aid, aty, aev, actx⟩ := a
    dsimp only at hty hev ⊢
    subst hty
    subst hev
    have hred : translateMapped
        (translateFocus ctx ⟨aid, "keyboard", BrickEvent.keyboard e, actx⟩).1
        ⟨aid, "keyboard", BrickEvent.keyboard e, actx⟩ =
        (if e.type = "textInput" then
          [⟨"type", none, some e.key, none, none,
            "Type \"" ++ e.key ++ "\"",
            some (translateFocus ctx
              ⟨aid, "keyboard", BrickEvent.keyboard e, actx⟩).1⟩]
         else []) := rfl
    rw [hred, if_pos ht]
  · intro e sc hty hev hsc
    obtain ⟨aid, aty, aev, actx⟩ := a
    dsimp only at hty hev ⊢
    subst hty
    subst hev
    have hred : translateMapped
        (translateFocus ctx ⟨aid, "system", BrickEvent.system e, actx⟩).1
        ⟨aid, "system", BrickEvent.system e, actx⟩ =
        (match e.systemCall with
         | some sc =>
           [⟨"system", none, none, none, some sc,
             "Execute system call: " ++ sc.type ++ " - " ++ sc.function,
             some (translateFocus ctx
               ⟨aid, "system", BrickEvent.system e, actx⟩).1⟩]
         | none => []) := rfl
    rw [hred, hsc]

/-- Mouse action carrying no target payload (as the synthesizer itself
produces them). -/
def mouseNoTargetAction : BrickAction :=
  ⟨"m0", "mouse",
    .mouse
      { type := "move"
        coordinates := ⟨⟨5, 1⟩, ⟨5, 1⟩, none, none⟩
        target := none
        button := none
        pressure := none
        timestamp := ⟨0, 1⟩ },
    ctx0⟩

/-- C4, counterexample.  A mouse action without a target payload maps to
NO instruction before the coalescing pass (the field-presence guard on
the target fails), refuting the claim that every mouse
action maps to exactly one click instruction. -/
theorem C4_counterexample :
    translateToInstructionsPre [mouseNoTargetAction] = [] ∧
    (translateToInstructionsPre [mouseNoTargetAction]).length ≠ 1 :=
  ⟨by decide, by decide⟩

/-- Concrete mouse target used by the C4 witness. -/
def mouseTgt : BrickMouseTarget := ⟨"button", "button#save", some "Save", [], none⟩

/-- Concrete targeted mouse event used by the C4 witness. -/
def mouseEvt : BrickMouseEvent :=
  { type := "click"
    coordinates := ⟨⟨1, 1⟩, ⟨2, 1⟩, none, none⟩
    target := some mouseTgt
    button := none
    pressure := none
    timestamp := ⟨0, 1⟩ }

/-- Concrete targeted mouse action used by the C4 witness. -/
def mouseTargetAction : BrickAction := ⟨"m1", "mouse", .mouse mouseEvt, ctx0⟩

/-- C4, witness: on a concrete targeted mouse click the refinement theorem
yields exactly one mapped instruction of the claimed click shape. -/
theorem C4_refines_witness :
    (translateMapped (translateFocus "" mouseTargetAction).1
      mouseTargetAction).length = 1 ∧
    (∃ label,
      ((∃ s, mouseTgt.text = some s ∧ s ≠ "" ∧ label = s) ∨
        label = mouseTgt.element) ∧
      translateMapped (translateFocus "" mouseTargetAction).1
          mouseTargetAction =
        [⟨"click", some label, none, some mouseTgt.selector, none,
          "Click " ++ label, some (translateFocus "" mouseTargetAction).1⟩]) :=
  ⟨(C4_translation_refines "" mouseTargetAction).2.2.2.1.mpr (by decide),
   (C4_translation_refines "" mouseTargetAction).2.2.2.2.1 mouseEvt mouseTgt
     rfl rfl rfl⟩
